import Mathlib

/-!
Shallow embedding of the restaurant table-booking backend
(`backend.py`, `models/`, `pg_driver.py`).

The relational store is a `DB` value: one list of rows per table
(`users`, `tables`, `bookings`) plus the SERIAL counters that produce the
`RETURNING id` values.  Timestamps (`TIMESTAMPTZ`) are embedded as `Int`;
SQL `now()` is passed to each mutating operation as an explicit `now`
argument, since the source evaluates it at statement-execution time.
Each backend function runs its single write statement inside
`PGDriver.transaction` (commit on success, rollback and re-raise on
error); the embedding therefore renders each operation as one atomic
state transformer, and an operation that raises returns the unchanged
pre-state together with the error.  Columns the claims quantify over
(`table_id`, `starts_at`, `ends_at`, `guest_count`, `status` of a stored
booking) are embedded as non-null values; genuinely optional descriptive
columns keep `Option` types.
-/

namespace Bookings

/-- A stored row of the `bookings` table, after the columns of
`models/booking.py` and the DDL generated for it (only `id` is
`NOT NULL`; descriptive columns stay nullable, modelled with `Option`). -/
structure BookingRow where
  id : Nat
  user_id : Option Nat := none
  table_id : Nat
  starts_at : Int
  ends_at : Int
  guest_count : Int := 0
  status : String
  contact_name : Option String := none
  contact_phone : Option String := none
  notes : Option String := none
  created_at : Int := 0
  updated_at : Int := 0
  canceled_at : Option Int := none
  cancel_reason : Option String := none
deriving Repr, DecidableEq

/-- A stored row of the `users` table (`models/users.py`). -/
structure UserRow where
  id : Nat
  email : Option String := none
  full_name : Option String := none
  phone : Option String := none
  created_at : Int := 0
  updated_at : Int := 0
deriving Repr, DecidableEq

/-- A stored row of the `tables` table (`models/tables.py`). -/
structure TableRow where
  id : Nat
  number : Option Int := none
  capacity : Option Int := none
  zone : Option String := none
  status : Option String := none
  notes : Option String := none
  created_at : Int := 0
  updated_at : Int := 0
deriving Repr, DecidableEq

/-- The relational store: the three tables plus the SERIAL counters used
for `RETURNING id`. -/
structure DB where
  users : List UserRow := []
  tables : List TableRow := []
  bookings : List BookingRow := []
  nextUserId : Nat := 1
  nextTableId : Nat := 1
  nextBookingId : Nat := 1
deriving Repr, DecidableEq

/-- The `Booking` dataclass as passed to `create_booking`
(`to_insert_params` supplies user_id, table_id, starts_at, ends_at,
guest_count, status, contact_name, contact_phone, notes). -/
structure Booking where
  id : Option Nat := none
  user_id : Option Nat := none
  table_id : Nat
  starts_at : Int
  ends_at : Int
  guest_count : Int
  status : String := "pending"
  contact_name : Option String := none
  contact_phone : Option String := none
  notes : Option String := none
deriving Repr, DecidableEq

/-- The `User` dataclass as passed to `create_user` / `update_user`. -/
structure User where
  id : Option Nat := none
  email : Option String := none
  full_name : Option String := none
  phone : Option String := none
deriving Repr, DecidableEq

/-- The `Table` dataclass as passed to `create_table_rec` / `update_table_rec`. -/
structure Table where
  id : Option Nat := none
  number : Option Int := none
  capacity : Option Int := none
  zone : Option String := none
  status : Option String := none
  notes : Option String := none
deriving Repr, DecidableEq

/-- Errors an operation can surface: `conflict` is the `ValueError`
raised on a failed availability check; `storageFailure` is a constraint
violation at the relational layer (here: `ON DELETE RESTRICT` on
`bookings.table_id`). -/
inductive DbError where
  | conflict
  | storageFailure
deriving Repr, DecidableEq

/-- The exact status string written by `cancel_booking`
(`UPDATE bookings SET status='canceled', ...`) and compared against by
the availability filter (`status <> 'canceled'`). -/
def canceledStatus : String := "canceled"

/-- The WHERE clause of `is_table_available`, evaluated on one stored row:
`table_id=%s AND status <> 'canceled' AND NOT (ends_at <= %s OR starts_at >= %s)`,
with the optional `AND id<>%s` when an exclusion id is supplied. -/
def conflictsWith (tableId : Nat) (startsAt endsAt : Int) (excl : Option Nat)
    (r : BookingRow) : Bool :=
  r.table_id == tableId && !(r.status == canceledStatus) &&
    !(decide (r.ends_at ≤ startsAt) || decide (r.starts_at ≥ endsAt)) &&
    (match excl with
     | none => true
     | some b => !(r.id == b))

/-- `is_table_available` (backend.py 162-187): `SELECT 1 FROM bookings WHERE ...`
via `fetchone`; the table is available exactly when no row satisfies the
clause (`row is None`). -/
def is_table_available (db : DB) (tableId : Nat) (startsAt endsAt : Int)
    (excl : Option Nat := none) : Bool :=
  (db.bookings.find? (conflictsWith tableId startsAt endsAt excl)).isNone

/-- The row the INSERT of `create_booking` stores: insert params from the
`Booking` value, `id` from the SERIAL counter, `created_at`/`updated_at`
from the column defaults `now()`, cancellation columns NULL. -/
def mkBookingRow (b : Booking) (newId : Nat) (now : Int) : BookingRow :=
  { id := newId, user_id := b.user_id, table_id := b.table_id,
    starts_at := b.starts_at, ends_at := b.ends_at,
    guest_count := b.guest_count, status := b.status,
    contact_name := b.contact_name, contact_phone := b.contact_phone,
    notes := b.notes, created_at := now, updated_at := now,
    canceled_at := none, cancel_reason := none }

/-- The INSERT statement of `create_booking`, run inside its own
`db.transaction()`: appends the new row and returns the `RETURNING id`. -/
def insertBookingStmt (db : DB) (b : Booking) (now : Int) : Nat × DB :=
  (db.nextBookingId,
   { db with bookings := db.bookings ++ [mkBookingRow b db.nextBookingId now],
             nextBookingId := db.nextBookingId + 1 })

/-- `create_booking` (backend.py 190-211): availability check first (on
its own autocommit connection), `ValueError` on conflict before any
write; otherwise the INSERT in a separately opened transaction. -/
def create_booking (db : DB) (b : Booking) (now : Int) : Except DbError Nat × DB :=
  if !(is_table_available db b.table_id b.starts_at b.ends_at) then
    (Except.error DbError.conflict, db)
  else
    let p := insertBookingStmt db b now
    (Except.ok p.1, p.2)

/-- `get_booking` (backend.py 214-226): `SELECT * FROM bookings WHERE id=%s`
via `fetchone`. -/
def get_booking (db : DB) (bookingId : Nat) : Option BookingRow :=
  db.bookings.find? (fun r => r.id == bookingId)

/-- Affected-row count of an `UPDATE ... WHERE id=%s` on `bookings`. -/
def rowCount (db : DB) (bookingId : Nat) : Nat :=
  db.bookings.countP (fun r => r.id == bookingId)

/-- The UPDATE statement of `update_booking_times`, run inside its own
transaction: sets the new window, guest count and `updated_at=now()` on
the matching row and returns the rowcount. -/
def updateTimesStmt (db : DB) (bookingId : Nat) (startsAt endsAt : Int)
    (guestCount : Int) (now : Int) : Nat × DB :=
  (rowCount db bookingId,
   { db with bookings := db.bookings.map (fun r =>
      if r.id == bookingId then
        { r with starts_at := startsAt, ends_at := endsAt,
                 guest_count := guestCount, updated_at := now }
      else r) })

/-- `update_booking_times` (backend.py 229-254): look the booking up
(absent gives rowcount 0, no error); re-check availability excluding the
booking's own id, `ValueError` on conflict; else run the UPDATE. -/
def update_booking_times (db : DB) (bookingId : Nat) (startsAt endsAt : Int)
    (guestCount : Int) (now : Int) : Except DbError Nat × DB :=
  match get_booking db bookingId with
  | none => (Except.ok 0, db)
  | some bk =>
    if !(is_table_available db bk.table_id startsAt endsAt (some bookingId)) then
      (Except.error DbError.conflict, db)
    else
      let p := updateTimesStmt db bookingId startsAt endsAt guestCount now
      (Except.ok p.1, p.2)

/-- `set_booking_status` (backend.py 257-269):
`UPDATE bookings SET status=%s, updated_at=now() WHERE id=%s`. -/
def set_booking_status (db : DB) (bookingId : Nat) (st : String) (now : Int) :
    Nat × DB :=
  (rowCount db bookingId,
   { db with bookings := db.bookings.map (fun r =>
      if r.id == bookingId then { r with status := st, updated_at := now }
      else r) })

/-- `cancel_booking` (backend.py 272-287): `UPDATE bookings SET
status='canceled', canceled_at=now(), cancel_reason=%s, updated_at=now()
WHERE id=%s`. -/
def cancel_booking (db : DB) (bookingId : Nat) (reason : Option String)
    (now : Int) : Nat × DB :=
  (rowCount db bookingId,
   { db with bookings := db.bookings.map (fun r =>
      if r.id == bookingId then
        { r with status := canceledStatus, canceled_at := some now,
                 cancel_reason := reason, updated_at := now }
      else r) })

/-- `create_user` (backend.py 37-50): INSERT with `RETURNING id`. -/
def create_user (db : DB) (u : User) (now : Int) : Nat × DB :=
  let row : UserRow :=
    { id := db.nextUserId, email := u.email, full_name := u.full_name,
      phone := u.phone, created_at := now, updated_at := now }
  (db.nextUserId,
   { db with users := db.users ++ [row], nextUserId := db.nextUserId + 1 })

/-- `update_user` (backend.py 68-80): UPDATE by the dataclass id (a NULL
id matches no row). -/
def update_user (db : DB) (u : User) (now : Int) : Nat × DB :=
  (db.users.countP (fun r => some r.id == u.id),
   { db with users := db.users.map (fun r =>
      if some r.id == u.id then
        { r with email := u.email, full_name := u.full_name,
                 phone := u.phone, updated_at := now }
      else r) })

/-- `delete_user` (backend.py 83-94): DELETE; the `user_id` foreign key
on `bookings` is `ON DELETE CASCADE`, so the referencing bookings go too. -/
def delete_user (db : DB) (userId : Nat) : Nat × DB :=
  (db.users.countP (fun r => r.id == userId),
   { db with users := db.users.filter (fun r => !(r.id == userId)),
             bookings :=
               if db.users.any (fun r => r.id == userId) then
                 db.bookings.filter (fun b => !(b.user_id == some userId))
               else db.bookings })

/-- `create_table_rec` (backend.py 97-113): INSERT with `RETURNING id`. -/
def create_table_rec (db : DB) (t : Table) (now : Int) : Nat × DB :=
  let row : TableRow :=
    { id := db.nextTableId, number := t.number, capacity := t.capacity,
      zone := t.zone, status := t.status, notes := t.notes,
      created_at := now, updated_at := now }
  (db.nextTableId,
   { db with tables := db.tables ++ [row], nextTableId := db.nextTableId + 1 })

/-- `update_table_rec` (backend.py 131-145): UPDATE by the dataclass id. -/
def update_table_rec (db : DB) (t : Table) (now : Int) : Nat × DB :=
  (db.tables.countP (fun r => some r.id == t.id),
   { db with tables := db.tables.map (fun r =>
      if some r.id == t.id then
        { r with number := t.number, capacity := t.capacity, zone := t.zone,
                 status := t.status, notes := t.notes, updated_at := now }
      else r) })

/-- `delete_table` (backend.py 148-159): DELETE; the `table_id` foreign
key on `bookings` is `ON DELETE RESTRICT`, so deleting a table that a
booking still references violates the constraint, the transaction rolls
back and the error propagates. -/
def delete_table (db : DB) (tableId : Nat) : Except DbError Nat × DB :=
  if db.tables.any (fun t => t.id == tableId) &&
     db.bookings.any (fun b => b.table_id == tableId) then
    (Except.error DbError.storageFailure, db)
  else
    (Except.ok (db.tables.countP (fun t => t.id == tableId)),
     { db with tables := db.tables.filter (fun t => !(t.id == tableId)) })

/-! Concrete stores used to evaluate the theorems on explicit inputs. -/

/-- A single pending booking: table 1, interval [0, 10). -/
def row1 : BookingRow :=
  { id := 1, table_id := 1, starts_at := 0, ends_at := 10,
    guest_count := 2, status := "pending" }

/-- A store holding just `row1`. -/
def oneBookingDb : DB := { bookings := [row1], nextBookingId := 2 }

/-- A store holding two active bookings of table 1 with the same
interval [0, 10): a state with its invariant already violated, reachable
for instance by re-confirming a canceled booking after the slot was
re-sold. -/
def doubleDb : DB :=
  { bookings :=
      [ { id := 1, table_id := 1, starts_at := 0, ends_at := 10,
          guest_count := 2, status := "confirmed" },
        { id := 2, table_id := 1, starts_at := 0, ends_at := 10,
          guest_count := 3, status := "confirmed" } ],
    nextBookingId := 3 }

/-- An empty store with table 5 provisioned. -/
def raceDb : DB := { tables := [{ id := 5 }] }

/-- First concurrent request: table 5, interval [0, 120). -/
def raceB1 : Booking :=
  { table_id := 5, starts_at := 0, ends_at := 120, guest_count := 2 }

/-- Second concurrent request: table 5, interval [60, 180), overlapping
the first. -/
def raceB2 : Booking :=
  { table_id := 5, starts_at := 60, ends_at := 180, guest_count := 3 }

/-- A booking request with an empty window (`ends_at <= starts_at`) and a
non-positive guest count, on a table with no bookings. -/
def badBooking : Booking :=
  { table_id := 2, starts_at := 5, ends_at := 3, guest_count := -1 }

/-! Helper lemmas shared by the claim theorems. -/

/-- The WHERE clause of the availability scan, without an exclusion id,
holds exactly for an active (non-canceled) booking of the table whose
half-open interval meets the requested one. -/
theorem conflictsWith_none_iff (tableId : Nat) (s e : Int) (r : BookingRow) :
    conflictsWith tableId s e none r = true ↔
      r.table_id = tableId ∧ r.status ≠ canceledStatus ∧
        ¬(r.ends_at ≤ s ∨ r.starts_at ≥ e) := by
  simp [conflictsWith, not_or, and_assoc]

/-- Supplying an exclusion id only adds the conjunct `id<>%s` to the scan. -/
theorem conflictsWith_some_eq (tableId : Nat) (s e : Int) (b : Nat)
    (r : BookingRow) :
    conflictsWith tableId s e (some b) r =
      (conflictsWith tableId s e none r && !(r.id == b)) := by
  simp [conflictsWith]

/-- The table is available exactly when no stored row satisfies the scan
clause. -/
theorem is_table_available_iff (db : DB) (tableId : Nat) (s e : Int)
    (excl : Option Nat) :
    is_table_available db tableId s e excl = true ↔
      ∀ r ∈ db.bookings, conflictsWith tableId s e excl r = false := by
  simp [is_table_available, Option.isNone_iff_eq_none, List.find?_eq_none]

/-- The table is unavailable exactly when some stored row satisfies the
scan clause. -/
theorem is_table_available_false_iff (db : DB) (tableId : Nat) (s e : Int)
    (excl : Option Nat) :
    is_table_available db tableId s e excl = false ↔
      ∃ r ∈ db.bookings, conflictsWith tableId s e excl r = true := by
  rw [← Bool.not_eq_true, is_table_available_iff]
  simp

/-- C1: `is_table_available table_id start end` returns true iff no
booking of that table whose status differs from the canceled status has
an interval [s1, e1) overlapping [start, end) under the rule
NOT (e1 <= start OR s1 >= end); in particular a booking touching at
e1 = start never blocks, a booking starting exactly at start blocks
(for nonempty intervals), and a canceled booking never blocks any
interval. -/
theorem C1_is_table_available_spec (db : DB) (tableId : Nat) (s e : Int) :
    (is_table_available db tableId s e = true ↔
      ¬ ∃ r ∈ db.bookings, r.table_id = tableId ∧ r.status ≠ canceledStatus ∧
          ¬(r.ends_at ≤ s ∨ r.starts_at ≥ e))
    ∧ (∀ r : BookingRow, r.ends_at = s →
        conflictsWith tableId s e none r = false)
    ∧ (∀ r : BookingRow, r.table_id = tableId → r.status ≠ canceledStatus →
        r.starts_at = s → s < r.ends_at → s < e →
        conflictsWith tableId s e none r = true)
    ∧ (∀ r : BookingRow, r.status = canceledStatus →
        conflictsWith tableId s e none r = false) := by
  refine ⟨?_, ?_, ?_, ?_⟩
  · rw [is_table_available_iff]
    push_neg
    refine forall₂_congr fun r hr => ?_
    rw [Bool.eq_false_iff, Ne, conflictsWith_none_iff]
    tauto
  · intro r h
    simp [conflictsWith, h]
  · intro r h1 h2 h3 h4 h5
    rw [conflictsWith_none_iff]
    exact ⟨h1, h2, by omega⟩
  · intro r h
    simp [conflictsWith, h]

/-- C2: `create_booking` raises Conflict and leaves the store unchanged
when the table is unavailable for the requested window, and otherwise
persists exactly one new row and returns its identifier. -/
theorem C2_create_booking_spec (db : DB) (b : Booking) (now : Int) :
    (is_table_available db b.table_id b.starts_at b.ends_at = false →
      create_booking db b now = (Except.error DbError.conflict, db))
    ∧ (is_table_available db b.table_id b.starts_at b.ends_at = true →
      create_booking db b now =
        (Except.ok db.nextBookingId,
         { db with
             bookings := db.bookings ++ [mkBookingRow b db.nextBookingId now],
             nextBookingId := db.nextBookingId + 1 })) := by
  constructor
  · intro h
    simp [create_booking, h]
  · intro h
    simp [create_booking, h, insertBookingStmt]

/-- C3 counterexample: in a store where a second active booking occupies
booking 1's own window, updating booking 1 to its unchanged window [0, 10)
raises Conflict even though the re-check excludes booking 1 itself, so
the unchanged-window half of the claim fails as stated. -/
theorem C3_counterexample :
    get_booking doubleDb 1 =
      some { id := 1, table_id := 1, starts_at := 0, ends_at := 10,
             guest_count := 2, status := "confirmed" } ∧
    update_booking_times doubleDb 1 0 10 2 99 =
      (Except.error DbError.conflict, doubleDb) := by
  constructor
  · rfl
  · rfl

/-- C3 (amended): updating an existing booking succeeds — no Conflict —
whenever no other active booking of its table conflicts with the
requested window, the unchanged window included when the store satisfies
the non-overlap invariant, because the availability re-check excludes
the booking's own identifier from the conflict scan. -/
theorem C3_update_self_excluded (db : DB) (bookingId : Nat) (bk : BookingRow)
    (s e g now : Int)
    (hbk : get_booking db bookingId = some bk)
    (hfree : ∀ r ∈ db.bookings, r.id ≠ bookingId →
        conflictsWith bk.table_id s e none r = false) :
    ∃ n, (update_booking_times db bookingId s e g now).1 = Except.ok n := by
  have hav : is_table_available db bk.table_id s e (some bookingId) = true := by
    rw [is_table_available_iff]
    intro r hr
    rw [conflictsWith_some_eq]
    by_cases hid : r.id = bookingId
    · simp [hid]
    · simp [hfree r hr hid]
  refine ⟨(updateTimesStmt db bookingId s e g now).1, ?_⟩
  simp [update_booking_times, hbk, hav]

/-- C3 witness: booking 1 of `oneBookingDb` updated to its own window
[0, 10) succeeds. -/
theorem C3_update_self_excluded_witness :
    ∃ n, (update_booking_times oneBookingDb 1 0 10 2 5).1 = Except.ok n :=
  C3_update_self_excluded oneBookingDb 1 row1 0 10 2 5 (by decide) (by decide)

/-- C4: updating a nonexistent booking id returns rowcount 0, raises
nothing and leaves the whole store unchanged. -/
theorem C4_update_nonexistent (db : DB) (bookingId : Nat) (s e g now : Int)
    (h : get_booking db bookingId = none) :
    update_booking_times db bookingId s e g now = (Except.ok 0, db) := by
  simp [update_booking_times, h]

/-- C4 witness: the empty store holds no booking 7, and the update
returns 0 and changes nothing. -/
theorem C4_update_nonexistent_witness :
    update_booking_times ({} : DB) 7 0 10 2 0 = (Except.ok 0, ({} : DB)) :=
  C4_update_nonexistent {} 7 0 10 2 0 rfl

/-- An `UPDATE ... WHERE id=%s` rowcount is unchanged by mapping an
id-preserving per-row update over the stored rows. -/
theorem countP_id_map (l : List BookingRow) (f : BookingRow → BookingRow)
    (hf : ∀ r, (f r).id = r.id) (bookingId : Nat) :
    (l.map f).countP (fun r => r.id == bookingId) =
      l.countP (fun r => r.id == bookingId) := by
  induction l with
  | nil => rfl
  | cons a t ih => simp [List.countP_cons, ih, hf]

/-- Mapping a per-row update that fixes every row whose id does not
match leaves a list without a matching row unchanged. -/
theorem map_id_of_absent (l : List BookingRow) (g : BookingRow → BookingRow)
    (bookingId : Nat)
    (hg : ∀ r, (r.id == bookingId) = false → g r = r)
    (h : ∀ r ∈ l, (r.id == bookingId) = false) :
    l.map g = l := by
  induction l with
  | nil => rfl
  | cons a t ih =>
    rw [List.map_cons, hg a (h a (List.mem_cons_self a t)),
        ih fun r hr => h r (List.mem_cons_of_mem a hr)]

/-- Cancelling does not change any row's id, hence no rowcount. -/
theorem rowCount_cancel (db : DB) (bookingId : Nat) (reason : Option String)
    (now : Int) (i : Nat) :
    rowCount (cancel_booking db bookingId reason now).2 i = rowCount db i := by
  unfold rowCount cancel_booking
  apply countP_id_map
  intro r
  by_cases h0 : r.id = bookingId <;> simp [h0]

/-- C5: cancel is idempotent in effect: the first call reports
rowcount 1 and moves the booking to the canceled status with its stamps;
a second call raises nothing, reports rowcount 1 again, keeps the status
canceled, and merely re-stamps the cancellation timestamp and reason. -/
theorem C5_cancel_idempotent (db : DB) (bookingId : Nat)
    (r1 r2 : Option String) (t1 t2 : Int)
    (h : rowCount db bookingId = 1) :
    (cancel_booking db bookingId r1 t1).1 = 1 ∧
    (∀ r ∈ (cancel_booking db bookingId r1 t1).2.bookings, r.id = bookingId →
        r.status = canceledStatus ∧ r.canceled_at = some t1 ∧
        r.cancel_reason = r1) ∧
    (cancel_booking (cancel_booking db bookingId r1 t1).2 bookingId r2 t2).1 = 1 ∧
    (∀ r ∈ (cancel_booking (cancel_booking db bookingId r1 t1).2
              bookingId r2 t2).2.bookings, r.id = bookingId →
        r.status = canceledStatus ∧ r.canceled_at = some t2 ∧
        r.cancel_reason = r2) := by
  refine ⟨h, ?_, ?_, ?_⟩
  · intro r hr hid
    rcases List.mem_map.1 hr with ⟨rm, hrm, rfl⟩
    by_cases h0 : rm.id = bookingId
    · simp [h0]
    · simp [h0] at hid
  · rw [show (cancel_booking (cancel_booking db bookingId r1 t1).2
        bookingId r2 t2).1 = rowCount (cancel_booking db bookingId r1 t1).2
          bookingId from rfl, rowCount_cancel]
    exact h
  · intro r hr hid
    rcases List.mem_map.1 hr with ⟨rm, hrm, rfl⟩
    by_cases h0 : rm.id = bookingId
    · simp [h0]
    · simp [h0] at hid

/-- C5 witness: the second cancel of booking 1 again reports rowcount 1. -/
theorem C5_cancel_idempotent_witness :
    (cancel_booking (cancel_booking oneBookingDb 1 none 11).2
      1 (some "late") 12).1 = 1 :=
  (C5_cancel_idempotent oneBookingDb 1 none (some "late") 11 12 (by decide)).2.2.1

/-- C6: `set_booking_status` overwrites the stored status with any given
string unconditionally — no transition validation, transitions out of
the canceled status included — bumps the update timestamp, and returns
the affected rowcount, 0 when the booking does not exist. -/
theorem C6_set_status_unconditional (db : DB) (bookingId : Nat) (st : String)
    (now : Int) :
    (get_booking db bookingId = none →
      set_booking_status db bookingId st now = (0, db))
    ∧ (rowCount db bookingId = 1 →
      (set_booking_status db bookingId st now).1 = 1)
    ∧ (∀ r ∈ (set_booking_status db bookingId st now).2.bookings,
        r.id = bookingId → r.status = st ∧ r.updated_at = now) := by
  refine ⟨?_, fun h => h, ?_⟩
  · intro h
    have hall : ∀ r ∈ db.bookings, (r.id == bookingId) = false := by
      intro r hr
      simpa using List.find?_eq_none.mp h r hr
    have h1 : db.bookings.countP (fun r => r.id == bookingId) = 0 := by
      rw [List.countP_eq_zero]
      intro a ha
      simp [hall a ha]
    have h2 : db.bookings.map (fun r =>
        if r.id == bookingId then { r with status := st, updated_at := now }
        else r) = db.bookings := by
      refine map_id_of_absent db.bookings _ bookingId ?_ hall
      intro r hr
      simp [hr]
    simp only [set_booking_status, rowCount]
    rw [h1, h2]
  · intro r hr hid
    rcases List.mem_map.1 hr with ⟨rm, hrm, rfl⟩
    by_cases h0 : rm.id = bookingId
    · simp [h0]
    · simp [h0] at hid

/-- C7: no input validation: a booking with an empty window
(`ends_at <= starts_at`) or a non-positive guest count is not rejected —
when the availability check passes, `create_booking` persists the row
exactly as given, and `update_booking_times` likewise applies such a
window and guest count to an existing booking. -/
theorem C7_no_input_validation (db : DB) (b : Booking) (now : Int)
    (_hbad : b.ends_at ≤ b.starts_at ∨ b.guest_count ≤ 0) :
    (is_table_available db b.table_id b.starts_at b.ends_at = true →
      create_booking db b now =
        (Except.ok db.nextBookingId,
         { db with
             bookings := db.bookings ++ [mkBookingRow b db.nextBookingId now],
             nextBookingId := db.nextBookingId + 1 }))
    ∧ (∀ bookingId bk, get_booking db bookingId = some bk →
        is_table_available db bk.table_id b.starts_at b.ends_at
          (some bookingId) = true →
        update_booking_times db bookingId b.starts_at b.ends_at
            b.guest_count now =
          (Except.ok (rowCount db bookingId),
           (updateTimesStmt db bookingId b.starts_at b.ends_at
              b.guest_count now).2)) := by
  constructor
  · intro h
    simp [create_booking, h, insertBookingStmt]
  · intro bookingId bk hbk hav
    simp [update_booking_times, hbk, hav, updateTimesStmt]

/-- C7 witness: a booking on table 2 with window [5, 3) and guest count
-1 is persisted as given. -/
theorem C7_no_input_validation_witness :
    create_booking oneBookingDb badBooking 0 =
      (Except.ok 2,
       { oneBookingDb with
           bookings := oneBookingDb.bookings ++ [mkBookingRow badBooking 2 0],
           nextBookingId := 3 }) :=
  (C7_no_input_validation oneBookingDb badBooking 0 (by decide)).1 (by decide)

/-- C8: each mutating operation is a single transaction: an operation
that surfaces an error returns the store exactly as it was before the
call — the availability ValueError fires before any write reaches the
store, and the restrict-constraint violation on `delete_table` rolls its
transaction back — and no other operation of the backend can fail, so no
partial write survives a failure. -/
theorem C8_error_leaves_store_unchanged (db : DB) (b : Booking)
    (bookingId : Nat) (s e g now : Int) (tableId : Nat) :
    (∀ err, (create_booking db b now).1 = Except.error err →
        (create_booking db b now).2 = db)
    ∧ (∀ err, (update_booking_times db bookingId s e g now).1 =
          Except.error err →
        (update_booking_times db bookingId s e g now).2 = db)
    ∧ (∀ err, (delete_table db tableId).1 = Except.error err →
        (delete_table db tableId).2 = db) := by
  refine ⟨?_, ?_, ?_⟩
  · intro err h
    cases hav : is_table_available db b.table_id b.starts_at b.ends_at with
    | true => simp [create_booking, hav] at h
    | false => simp [create_booking, hav]
  · intro err h
    cases hbk : get_booking db bookingId with
    | none => simp [update_booking_times, hbk] at h
    | some bk =>
      cases hav : is_table_available db bk.table_id s e (some bookingId) with
      | true => simp [update_booking_times, hbk, hav] at h
      | false => simp [update_booking_times, hbk, hav]
  · intro err h
    cases hc : (db.tables.any (fun t => t.id == tableId) &&
        db.bookings.any (fun r => r.table_id == tableId)) with
    | true => simp [delete_table, hc]
    | false => simp [delete_table, hc] at h

/-- C9: the availability check and the write are separate phases — the
check on its own autocommit connection, the insert under a separately
opened transaction — so when the check passes, the effect of
`create_booking` is exactly the insert statement; interleaving two
requests for table 5 with overlapping windows (both checks against the
initial store, then both inserts) lets both checks pass and leaves two
distinct active bookings of table 5 with overlapping intervals, although
a re-check after the first write would have refused the second. -/
theorem C9_check_then_write_race :
    (∀ (db : DB) (b : Booking) (now : Int),
        is_table_available db b.table_id b.starts_at b.ends_at = true →
        create_booking db b now =
          (Except.ok (insertBookingStmt db b now).1,
           (insertBookingStmt db b now).2))
    ∧ is_table_available raceDb raceB1.table_id raceB1.starts_at
        raceB1.ends_at = true
    ∧ is_table_available raceDb raceB2.table_id raceB2.starts_at
        raceB2.ends_at = true
    ∧ is_table_available (insertBookingStmt raceDb raceB1 0).2
        raceB2.table_id raceB2.starts_at raceB2.ends_at = false
    ∧ ∃ ra ∈ (insertBookingStmt (insertBookingStmt raceDb raceB1 0).2
          raceB2 5).2.bookings,
      ∃ rb ∈ (insertBookingStmt (insertBookingStmt raceDb raceB1 0).2
          raceB2 5).2.bookings,
        ra.id ≠ rb.id ∧ ra.table_id = 5 ∧ rb.table_id = 5 ∧
        ra.status ≠ canceledStatus ∧ rb.status ≠ canceledStatus ∧
        ¬(ra.ends_at ≤ rb.starts_at ∨ ra.starts_at ≥ rb.ends_at) := by
  refine ⟨?_, by decide, by decide, by decide, by decide⟩
  intro db b now h
  simp [create_booking, h]

/-- C10: the availability filter compares the status column
case-sensitively with the exact lowercase string "canceled" — the one
string `cancel_booking` writes: a stored row carrying any other status
string, the capitalized "Canceled" included, counts as active and blocks
every overlapping window. -/
theorem C10_status_filter_case_sensitive (db : DB) (tableId : Nat)
    (s e : Int) (bookingId : Nat) (reason : Option String) (now : Int) :
    canceledStatus = "canceled"
    ∧ (∀ r ∈ db.bookings, r.table_id = tableId → r.status ≠ canceledStatus →
        ¬(r.ends_at ≤ s ∨ r.starts_at ≥ e) →
        is_table_available db tableId s e = false)
    ∧ (("Canceled" : String) ≠ canceledStatus
       ∧ ∀ st : String, st ≠ canceledStatus → s < e →
          conflictsWith tableId s e none
            { id := bookingId, table_id := tableId, starts_at := s,
              ends_at := e, guest_count := 1, status := st } = true)
    ∧ (∀ r ∈ (cancel_booking db bookingId reason now).2.bookings,
        r.id = bookingId → r.status = canceledStatus) := by
  refine ⟨rfl, ?_, ⟨by decide, ?_⟩, ?_⟩
  · intro r hr h1 h2 h3
    rw [is_table_available_false_iff]
    exact ⟨r, hr, (conflictsWith_none_iff tableId s e r).mpr ⟨h1, h2, h3⟩⟩
  · intro st h1 h2
    rw [conflictsWith_none_iff]
    exact ⟨rfl, h1, show ¬(e ≤ s ∨ s ≥ e) by omega⟩
  · intro r hr hid
    rcases List.mem_map.1 hr with ⟨rm, hrm, rfl⟩
    by_cases h0 : rm.id = bookingId
    · simp [h0]
    · simp [h0] at hid

end Bookings
